import Mathlib

/-!
Verification of the board-configuration header of an 8x8 WS2812B LED-matrix
driver (`src/lib/BoardConfig/BoardConfig.h`).

The header defines compile-time configuration macros, a pure coordinate
mapping function `XY` from logical (x, y) positions to physical LED indices,
a debug serializer `sendFrameData`, and a palette of named colors.

The preprocessor switches `PANEL_WIRING_SERPENTINE`, `PANEL_FLIP_X` and
`PANEL_FLIP_Y` select which branches of `XY` are compiled in.  We embed `XY`
as a function over an explicit configuration record `PanelConfig` whose
fields correspond to those switches, so that every preprocessor branch of
the source is represented; the configuration actually compiled in the header
(all switches 0) is the record `boardConfig`.

Machine integers: `x` and `y` are `uint8_t` and the result is `uint16_t` in
the source.  All intermediate values are bounded by 63 after clamping, far
below both 2^8 and 2^16, so no wrap-around can occur and the arithmetic is
embedded on `Nat`.  Where a claim speaks of `uint8` inputs, the theorem is
stated for all of `Nat`, which subsumes the byte range.
-/

/-- `#define MATRIX_WIDTH 8` -/
def MATRIX_WIDTH : Nat := 8

/-- `#define MATRIX_HEIGHT 8` -/
def MATRIX_HEIGHT : Nat := 8

/-- `#define NUM_LEDS (MATRIX_WIDTH * MATRIX_HEIGHT)` -/
def NUM_LEDS : Nat := MATRIX_WIDTH * MATRIX_HEIGHT

/-- `#define BRIGHTNESS_LIMIT 60` — safety limit to prevent overheating. -/
def BRIGHTNESS_LIMIT : Nat := 60

/-- `#define PANEL_WIRING_SERPENTINE 0` -/
def PANEL_WIRING_SERPENTINE : Nat := 0

/-- `#define PANEL_FLIP_X 0` -/
def PANEL_FLIP_X : Nat := 0

/-- `#define PANEL_FLIP_Y 0` -/
def PANEL_FLIP_Y : Nat := 0

/-- `#define PANEL_ROTATION 0` — rotation in degrees (0, 90, 180, 270). -/
def PANEL_ROTATION : Nat := 0

/-- The compile-time configuration space of the header: one field per
preprocessor switch that `XY` branches on, plus the declared (but never
read) rotation value. -/
structure PanelConfig where
  serpentine : Bool
  flipX : Bool
  flipY : Bool
  rotationDegrees : Nat
deriving DecidableEq, Repr

/-- The mapping function `XY` of the source, with the preprocessor branches
made explicit as a `PanelConfig` argument.  Mirrors the source line by line:
bounds clamping, then the `PANEL_FLIP_Y` pass, then the `PANEL_FLIP_X`
pass, then the topology pass (`y & 0x01` selects the reversed odd rows when
serpentine wiring is compiled in). -/
def XY (cfg : PanelConfig) (x y : Nat) : Nat :=
  -- if (x >= MATRIX_WIDTH) x = MATRIX_WIDTH - 1;
  let x := if x ≥ MATRIX_WIDTH then MATRIX_WIDTH - 1 else x
  -- if (y >= MATRIX_HEIGHT) y = MATRIX_HEIGHT - 1;
  let y := if y ≥ MATRIX_HEIGHT then MATRIX_HEIGHT - 1 else y
  -- #if PANEL_FLIP_Y: y = (MATRIX_HEIGHT - 1) - y;
  let y := if cfg.flipY then (MATRIX_HEIGHT - 1) - y else y
  -- #if PANEL_FLIP_X: x = (MATRIX_WIDTH - 1) - x;
  let x := if cfg.flipX then (MATRIX_WIDTH - 1) - x else x
  if cfg.serpentine then
    -- Serpentine wiring: odd rows are reversed
    if y &&& 1 ≠ 0 then
      (y * MATRIX_WIDTH) + (MATRIX_WIDTH - 1 - x)
    else
      (y * MATRIX_WIDTH) + x
  else
    -- Progressive wiring: simple row-major
    (y * MATRIX_WIDTH) + x

/-- The configuration the header actually compiles with: every switch is 0,
so no serpentine branch and no flip passes are active. -/
def boardConfig : PanelConfig :=
  { serpentine := PANEL_WIRING_SERPENTINE != 0
    flipX := PANEL_FLIP_X != 0
    flipY := PANEL_FLIP_Y != 0
    rotationDegrees := PANEL_ROTATION }

/-- The `XY` function as compiled in the header (all switches 0). -/
def XYcompiled (x y : Nat) : Nat := XY boardConfig x y

example : XYcompiled 0 0 = 0 := by decide
example : XYcompiled 7 0 = 7 := by decide
example : XYcompiled 0 1 = 8 := by decide
example : XYcompiled 7 7 = 63 := by decide
example : XYcompiled 8 0 = 7 := by decide
example : XY ⟨true, false, false, 0⟩ 0 1 = 15 := by decide
example : XY ⟨true, false, false, 0⟩ 7 1 = 8 := by decide
example : XY ⟨false, false, true, 0⟩ 0 0 = 56 := by decide
example : XY ⟨false, true, false, 0⟩ 0 0 = 7 := by decide

/-- C1: for every configuration and every input pair, the returned physical
index lies in `[0, W*H - 1]`, i.e. in `[0, 63]`; no input is rejected and no
error is signaled (the function is total). -/
theorem XY_bounded (cfg : PanelConfig) (x y : Nat) : XY cfg x y < NUM_LEDS := by
  unfold XY NUM_LEDS MATRIX_WIDTH MATRIX_HEIGHT
  dsimp only
  split_ifs <;> omega

/-- C2: with row-major topology and no flips on the 8x8 matrix, the mapper
computes `index = y*W + x` for every in-range pair; in particular
`XY(0,0) = 0`, `XY(7,0) = 7`, `XY(0,1) = 8` and `XY(7,7) = 63`. -/
theorem XY_rowMajor (x y : Fin MATRIX_WIDTH) :
    XY ⟨false, false, false, PANEL_ROTATION⟩ x.val y.val
      = y.val * MATRIX_WIDTH + x.val ∧
    XYcompiled 0 0 = 0 ∧ XYcompiled 7 0 = 7 ∧
    XYcompiled 0 1 = 8 ∧ XYcompiled 7 7 = 63 := by
  refine ⟨?_, by decide, by decide, by decide, by decide⟩
  revert x y
  decide

/-- C3: out-of-range input is silently clamped, never rejected: for every
configuration, an `x` at or beyond `W` behaves exactly as `x = W-1`, and a
`y` at or beyond `H` behaves exactly as `y = H-1`; in particular, in the
compiled configuration `XY(8,0) = XY(7,0) = 7`. -/
theorem XY_clamps (cfg : PanelConfig) (x y : Nat) :
    (MATRIX_WIDTH ≤ x → XY cfg x y = XY cfg (MATRIX_WIDTH - 1) y) ∧
    (MATRIX_HEIGHT ≤ y → XY cfg x y = XY cfg x (MATRIX_HEIGHT - 1)) ∧
    XYcompiled 8 0 = 7 ∧ XYcompiled 7 0 = 7 := by
  refine ⟨fun hx => ?_, fun hy => ?_, by decide, by decide⟩
  · have hx8 : 8 ≤ x := hx
    unfold XY
    simp [MATRIX_WIDTH, MATRIX_HEIGHT, hx8]
  · have hy8 : 8 ≤ y := hy
    unfold XY
    simp [MATRIX_WIDTH, MATRIX_HEIGHT, hy8]

/-- Witness for C3 at the concrete out-of-range input (200, 300): both
clamping hypotheses are discharged there. -/
theorem XY_clamps_witness :
    XY boardConfig 200 300 = XY boardConfig 7 300 ∧
    XY boardConfig 200 300 = XY boardConfig 200 7 :=
  ⟨(XY_clamps boardConfig 200 300).1 (by decide),
   (XY_clamps boardConfig 200 300).2.1 (by decide)⟩

/-- C4: with serpentine topology and no flips on the 8x8 matrix, odd rows
run right-to-left (`index = y*W + (W-1-x)`) and even rows left-to-right
(`index = y*W + x`); in particular `XY(0,0)=0`, `XY(7,0)=7`, `XY(0,1)=15`
and `XY(7,1)=8`. -/
theorem XY_serpentine (x : Fin MATRIX_WIDTH) (y : Fin MATRIX_HEIGHT) :
    XY ⟨true, false, false, PANEL_ROTATION⟩ x.val y.val
      = (if y.val % 2 = 1 then y.val * MATRIX_WIDTH + (MATRIX_WIDTH - 1 - x.val)
         else y.val * MATRIX_WIDTH + x.val) ∧
    XY ⟨true, false, false, PANEL_ROTATION⟩ 0 0 = 0 ∧
    XY ⟨true, false, false, PANEL_ROTATION⟩ 7 0 = 7 ∧
    XY ⟨true, false, false, PANEL_ROTATION⟩ 0 1 = 15 ∧
    XY ⟨true, false, false, PANEL_ROTATION⟩ 7 1 = 8 := by
  refine ⟨?_, by decide, by decide, by decide, by decide⟩
  revert x y
  decide

/-- C5: the flip pass reflects each axis before the topology pass: with
`flipY` set, `y` becomes `(H-1) - y`, and independently with `flipX` set,
`x` becomes `(W-1) - x`, for either topology; the concrete row-major cases
`XY(0,0)=56`, `XY(0,7)=0` under `flipY` and `XY(0,0)=7`, `XY(7,0)=0` under
`flipX` follow. -/
theorem XY_flips (s fX fY : Bool) (x : Fin MATRIX_WIDTH) (y : Fin MATRIX_HEIGHT) :
    XY ⟨s, fX, fY, PANEL_ROTATION⟩ x.val y.val
      = XY ⟨s, false, false, PANEL_ROTATION⟩
          (if fX then (MATRIX_WIDTH - 1) - x.val else x.val)
          (if fY then (MATRIX_HEIGHT - 1) - y.val else y.val) ∧
    XY ⟨false, false, true, PANEL_ROTATION⟩ 0 0 = 56 ∧
    XY ⟨false, false, true, PANEL_ROTATION⟩ 0 7 = 0 ∧
    XY ⟨false, true, false, PANEL_ROTATION⟩ 0 0 = 7 ∧
    XY ⟨false, true, false, PANEL_ROTATION⟩ 7 0 = 0 := by
  refine ⟨?_, by decide, by decide, by decide, by decide⟩
  revert s fX fY x y
  decide

/-- C6: for every fixed configuration (both topologies, all flip settings),
`XY` restricted to the clamped grid `{0..W-1} x {0..H-1}` hits every
physical index in `{0..W*H-1}` exactly once: each index has exactly one
preimage pair in the grid. -/
theorem XY_grid_bijection (s fX fY : Bool) (i : Fin NUM_LEDS) :
    (((Finset.range MATRIX_WIDTH) ×ˢ (Finset.range MATRIX_HEIGHT)).filter
      (fun p => XY ⟨s, fX, fY, PANEL_ROTATION⟩ p.1 p.2 = i.val)).card = 1 := by
  revert s fX fY i
  decide

/-- C7: the mapper never reads the rotation configuration: for every input
and every topology/flip setting, any two rotation-degrees values give the
same index. -/
theorem XY_rotation_independent (s fX fY : Bool) (r r' : Nat) (x y : Nat) :
    XY ⟨s, fX, fY, r⟩ x y = XY ⟨s, fX, fY, r'⟩ x y := rfl

/-- The `CRGB` pixel type of the FastLED library as used by the header:
three 8-bit color channels. -/
structure CRGB where
  r : Fin 256
  g : Fin 256
  b : Fin 256
deriving DecidableEq, Repr

/-- One uppercase hexadecimal digit, as produced by `sprintf` with `%X`. -/
def hexDigit (n : Nat) : Char :=
  if n < 10 then Char.ofNat (48 + n) else Char.ofNat (55 + n)

/-- `sprintf("%02X", v)` for a byte value `v`: exactly two uppercase hex
digits. -/
def hex2 (n : Nat) : String := String.mk [hexDigit (n / 16), hexDigit (n % 16)]

/-- `sendFrameData` of the source.  The bytes written to `Serial` are
modelled as the returned `String`: `Serial.print("FRAME:")`, then the two
nested loops (`y` outer over `MATRIX_HEIGHT`, `x` inner over
`MATRIX_WIDTH`) each print `sprintf("%02X%02X%02X,", color.r, color.g,
color.b)` for `color = leds[XY(x, y)]`.  The loops are embedded as maps
over `List.range`, concatenated in iteration order. -/
def sendFrameData (leds : Nat → CRGB) : String :=
  "FRAME:" ++ String.join ((List.range MATRIX_HEIGHT).map (fun y =>
    String.join ((List.range MATRIX_WIDTH).map (fun x =>
      let color := leds (XY boardConfig x y)
      hex2 color.r.val ++ hex2 color.g.val ++ hex2 color.b.val ++ ","))))

/-- The frame line as the spec words it: the prefix `FRAME:` followed by
one 6-hex-digit RGB triplet per pixel, each triplet followed by a comma,
pixels enumerated in row-major logical order (pixel `i` is at column
`i % W`, row `i / W`), each pixel's color read from the buffer at
`XY(x, y)`. -/
def frameLineSpec (leds : Nat → CRGB) : String :=
  "FRAME:" ++ String.join ((List.range (MATRIX_WIDTH * MATRIX_HEIGHT)).map (fun i =>
    let color := leds (XY boardConfig (i % MATRIX_WIDTH) (i / MATRIX_WIDTH))
    hex2 color.r.val ++ hex2 color.g.val ++ hex2 color.b.val ++ ","))

set_option maxRecDepth 8192 in
/-- C8: for every buffer, `sendFrameData` emits exactly the prefix
`FRAME:` followed by one comma-terminated RGB triplet per pixel in
row-major logical order, reading pixel `(x, y)` from the buffer at
`XY(x, y)`; each channel contributes exactly two hex digits. -/
theorem sendFrameData_format (leds : Nat → CRGB) (n : Nat) :
    sendFrameData leds = frameLineSpec leds ∧ (hex2 n).length = 2 := by
  refine ⟨?_, rfl⟩
  unfold sendFrameData frameLineSpec
  simp only [MATRIX_WIDTH, MATRIX_HEIGHT, Nat.reduceMul]
  simp only [List.range_succ, List.range_zero, List.map_append, List.map_cons, List.map_nil,
    List.nil_append, List.cons_append, String.join, List.foldl_append, List.foldl_cons,
    List.foldl_nil, Nat.reduceMod, Nat.reduceDiv, String.append_assoc, String.empty_append]

/-- The plain clamped row-major map, as the claim words it:
`min(y, 7) * 8 + min(x, 7)`. -/
def rowMajorClampSpec (x y : Nat) : Nat :=
  min y (MATRIX_HEIGHT - 1) * MATRIX_WIDTH + min x (MATRIX_WIDTH - 1)

/-- C9: in the configuration actually compiled in the header (serpentine,
flipX and flipY switches all 0), `XY` equals the plain clamped row-major
map `min(y,7)*8 + min(x,7)` on every input; no serpentine or flip
transformation is active. -/
theorem XYcompiled_is_rowMajorClamp (x y : Nat) :
    XYcompiled x y = rowMajorClampSpec x y ∧
    boardConfig.serpentine = false ∧
    boardConfig.flipX = false ∧
    boardConfig.flipY = false := by
  refine ⟨?_, rfl, rfl, rfl⟩
  unfold XYcompiled XY boardConfig rowMajorClampSpec
  unfold PANEL_WIRING_SERPENTINE PANEL_FLIP_X PANEL_FLIP_Y MATRIX_WIDTH MATRIX_HEIGHT
  simp only [bne_self_eq_false, Bool.false_eq_true, if_false, ite_false]
  split_ifs <;> omega

/-! The named color constants of the `MatrixColors` namespace. -/

namespace MatrixColors

def BLACK : CRGB := ⟨0, 0, 0⟩
def RED : CRGB := ⟨60, 0, 0⟩
def GREEN : CRGB := ⟨0, 60, 0⟩
def BLUE : CRGB := ⟨0, 0, 60⟩
def YELLOW : CRGB := ⟨60, 60, 0⟩
def CYAN : CRGB := ⟨0, 60, 60⟩
def MAGENTA : CRGB := ⟨60, 0, 60⟩
def WHITE : CRGB := ⟨60, 60, 60⟩
def ORANGE : CRGB := ⟨60, 30, 0⟩
def PURPLE : CRGB := ⟨30, 0, 60⟩

end MatrixColors

/-- C10: every named color constant of `MatrixColors` keeps each of its
three channels at or below `BRIGHTNESS_LIMIT` (60), the overheating-safety
ceiling. -/
theorem matrixColors_within_brightness_limit :
    ∀ c ∈ [MatrixColors.BLACK, MatrixColors.RED, MatrixColors.GREEN, MatrixColors.BLUE,
        MatrixColors.YELLOW, MatrixColors.CYAN, MatrixColors.MAGENTA, MatrixColors.WHITE,
        MatrixColors.ORANGE, MatrixColors.PURPLE],
      c.r.val ≤ BRIGHTNESS_LIMIT ∧ c.g.val ≤ BRIGHTNESS_LIMIT ∧ c.b.val ≤ BRIGHTNESS_LIMIT := by
  decide

/-- Witness for C10 at the concrete color `WHITE`, whose membership in the
palette list discharges the hypothesis. -/
theorem matrixColors_within_brightness_limit_witness :
    MatrixColors.WHITE.r.val ≤ BRIGHTNESS_LIMIT ∧
    MatrixColors.WHITE.g.val ≤ BRIGHTNESS_LIMIT ∧
    MatrixColors.WHITE.b.val ≤ BRIGHTNESS_LIMIT :=
  matrixColors_within_brightness_limit MatrixColors.WHITE (by decide)
